import Mathlib

/-!
# Verification of the eco-rating engine (FraGG 3.0 parser)

A shallow embedding, over exact rationals, of the parts of the eco-rating
code base that the verified properties talk about:

* `Parser` — the per-round man-advantage ledger (`parser/advantage_tracker.go`).
* `Rating` — the multi-component final-rating formula and its per-side entry
  point (`rating/rating.go`), together with the constant tables of the rating
  package.
* `RatingLinear` — the alternate linear final-rating formula found in the
  second rating implementation.

Go `float64` values are modelled as `ℚ`, Go `int`/`uint64` as `ℤ`/`ℕ`.
The transcendental library function `math.Pow` and the tuning constants that
are defined in `rating/weights.go` but not included in the sources are
modelled abstractly (see `Rating.RatingParams`).
-/

namespace Parser

/-- The team/side enumeration of the demo library (`common.Team`):
unassigned, spectators, terrorists, counter-terrorists. -/
inductive Team where
  | unassigned
  | spectators
  | terrorists
  | counterTerrorists
deriving DecidableEq, Repr

/-- `AdvantageSlot` represents a man advantage created by a player's kill
(`parser/advantage_tracker.go`). -/
structure AdvantageSlot where
  PlayerID : ℕ
  Side : Team
deriving DecidableEq, Repr

/-- `AdvantageTracker` tracks man advantages created by kills within a round:
advantage slots per team, ordered FIFO (oldest first). -/
structure AdvantageTracker where
  tSlots : List AdvantageSlot
  ctSlots : List AdvantageSlot
deriving DecidableEq, Repr

/-- `NewAdvantageTracker` creates a new tracker with empty slot lists. -/
def NewAdvantageTracker : AdvantageTracker :=
  { tSlots := [], ctSlots := [] }

/-- `Reset` clears all advantage slots for a new round. -/
def Reset (_t : AdvantageTracker) : AdvantageTracker :=
  { tSlots := [], ctSlots := [] }

/-- `getSlots` returns the advantage slots for a team: the T list exactly for
`TeamTerrorists`, the CT list for every other side value. -/
def getSlots (t : AdvantageTracker) (side : Team) : List AdvantageSlot :=
  if side = Team.terrorists then t.tSlots else t.ctSlots

/-- `setSlots` sets the advantage slots for a team. -/
def setSlots (t : AdvantageTracker) (side : Team) (slots : List AdvantageSlot) :
    AdvantageTracker :=
  if side = Team.terrorists then { t with tSlots := slots } else { t with ctSlots := slots }

/-- `addSlot` appends an advantage slot for a team. -/
def addSlot (t : AdvantageTracker) (side : Team) (slot : AdvantageSlot) : AdvantageTracker :=
  if side = Team.terrorists then { t with tSlots := t.tSlots ++ [slot] }
  else { t with ctSlots := t.ctSlots ++ [slot] }

/-- `removePlayerSlots` removes all slots owned by a specific player. -/
def removePlayerSlots (t : AdvantageTracker) (playerID : ℕ) (side : Team) : AdvantageTracker :=
  setSlots t side ((getSlots t side).filter (fun slot => slot.PlayerID != playerID))

/-- The beneficiary-collecting loop of `RecordKill`: iterate over the side's
slots in order, appending each slot's owner the first time it is seen, the
killer excluded.  The Go `seen` map holds exactly the ids already appended to
the accumulator, so it is modelled by membership in the accumulator. -/
def survivalBeneficiaries (killerID : ℕ) (slots : List AdvantageSlot) : List ℕ :=
  slots.foldl
    (fun acc slot =>
      if slot.PlayerID ≠ killerID ∧ slot.PlayerID ∉ acc then acc ++ [slot.PlayerID] else acc)
    []

/-- `RecordKill` collects the alive advantage creators on the killer's team
(excluding the killer) before adding the new slot, then appends an advantage
slot for the killer; it returns the beneficiary list and the updated tracker. -/
def RecordKill (t : AdvantageTracker) (killerID : ℕ) (killerSide : Team) :
    List ℕ × AdvantageTracker :=
  (survivalBeneficiaries killerID (getSlots t killerSide),
    addSlot t killerSide { PlayerID := killerID, Side := killerSide })

/-- `RecordDeath` removes the oldest advantage slot on the victim's team when
one exists (`slots[1:]`), then removes any remaining slots owned by the dying
player. -/
def RecordDeath (t : AdvantageTracker) (victimID : ℕ) (victimSide : Team) : AdvantageTracker :=
  let slots := getSlots t victimSide
  let t1 := if slots.length > 0 then setSlots t victimSide slots.tail else t
  removePlayerSlots t1 victimID victimSide

/-- Follows the spec's words: the distinct elements of a list in order of
first appearance (creation order), each kept once. -/
def distinctInOrder : List ℕ → List ℕ
  | [] => []
  | x :: xs => x :: distinctInOrder (xs.filter (fun y => y != x))
termination_by l => l.length
decreasing_by
  simp only [List.length_cons]
  exact Nat.lt_succ_of_le (List.length_filter_le _ _)

/-- Follows the spec's words: the survival-credit beneficiaries of a kill are
the distinct player ids, excluding the killer, already holding an unconsumed
slot on the killer's side, in slot-creation order. -/
def specBeneficiaries (killerID : ℕ) (slots : List AdvantageSlot) : List ℕ :=
  distinctInOrder ((slots.map AdvantageSlot.PlayerID).filter (fun y => y != killerID))

end Parser

namespace Model

/-- The per-player cumulative statistics record (`model/player_stats.go`),
restricted to the fields that the rating entry points read.  Go `int` fields
are `ℤ`, `float64` fields are `ℚ`, and the `[6]int` multi-kill histograms are
`Fin 6 → ℤ` (index = kills in round).  Identity and export-only fields, which
no verified operation reads, are omitted.  `MultiKillsRaw` is the histogram
field read by the linear rating implementation. -/
structure PlayerStats where
  RoundsPlayed : ℤ := 0
  Kills : ℤ := 0
  Assists : ℤ := 0
  Deaths : ℤ := 0
  Damage : ℤ := 0
  OpeningKills : ℤ := 0
  RoundsWithMultiKill : ℤ := 0
  MultiKills : Fin 6 → ℤ := fun _ => 0
  MultiKillsRaw : Fin 6 → ℤ := fun _ => 0
  KAST : ℚ := 0
  EcoKillValue : ℚ := 0
  RoundSwing : ℚ := 0
  ClutchRounds : ℤ := 0
  ClutchWins : ℤ := 0
  OpeningAttempts : ℤ := 0
  OpeningSuccesses : ℤ := 0
  RoundsWonAfterOpening : ℤ := 0
  TradeKills : ℤ := 0
  TradedDeaths : ℤ := 0
  SavedTeammate : ℤ := 0
  UtilityDamage : ℤ := 0
  FlashAssists : ℤ := 0
  EnemyFlashDuration : ℚ := 0
  AWPDeathsNoKill : ℤ := 0
  ADR : ℚ := 0
  KPR : ℚ := 0
  DPR : ℚ := 0

/-- Modelled from the spec: `parser.computeDerivedStats` (parser/parser.go is
not under src/) assigns the derived per-round rates only inside an
`if p.RoundsPlayed > 0` guard, so for a record with zero rounds played every
rate field keeps its zero value and no quotient is formed ("if roundsPlayed = 0
then every derived rate = 0 (no division fault)"). -/
def computeDerivedStats (p : PlayerStats) : PlayerStats :=
  if p.RoundsPlayed > 0 then
    { p with
      ADR := (p.Damage : ℚ) / (p.RoundsPlayed : ℚ)
      KPR := (p.Kills : ℚ) / (p.RoundsPlayed : ℚ)
      DPR := (p.Deaths : ℚ) / (p.RoundsPlayed : ℚ) }
  else p

end Model

namespace Rating

/- Constant tables of the rating package (`rating.go`, constants section). -/

/-- Average kills per round. -/
def BaselineKPR : ℚ := 0.72
/-- Average deaths per round. -/
def BaselineDPR : ℚ := 0.68
/-- Average damage per round. -/
def BaselineADR : ℚ := 77.0
/-- KAST percentage baseline. -/
def BaselineKAST : ℚ := 0.72

/-- Pistol killing rifle (huge disadvantage). -/
def EcoKillPistolVsRifle : ℚ := 1.80
/-- Eco killing force/full buy. -/
def EcoKillEcoVsForce : ℚ := 1.50
/-- Force buy killing full buy. -/
def EcoKillForceVsFullBuy : ℚ := 1.25
/-- Slight equipment disadvantage. -/
def EcoKillSlightDisadvantage : ℚ := 1.10
/-- Equal equipment. -/
def EcoKillEqual : ℚ := 1.00
/-- Slight equipment advantage. -/
def EcoKillSlightAdvantage : ℚ := 0.95
/-- Clear equipment advantage. -/
def EcoKillAdvantage : ℚ := 0.85
/-- Rifle killing pistol (expected). -/
def EcoKillRifleVsPistol : ℚ := 0.70

/-- Rifle dying to pistol (embarrassing). -/
def EcoDeathToPistol : ℚ := 1.60
/-- Full buy dying to eco. -/
def EcoDeathToEco : ℚ := 1.40
/-- Full buy dying to force. -/
def EcoDeathToForceBuy : ℚ := 1.20
/-- Slight advantage, still died. -/
def EcoDeathSlightAdvantage : ℚ := 1.10
/-- Equal equipment death. -/
def EcoDeathEqual : ℚ := 1.00
/-- Slight disadvantage death. -/
def EcoDeathSlightDisadvantage : ℚ := 0.95
/-- Clear disadvantage death. -/
def EcoDeathDisadvantage : ℚ := 0.85
/-- Pistol dying to rifle (expected). -/
def EcoDeathPistolVsRifle : ℚ := 0.70

/-- Minimum possible rating. -/
def MinRating : ℚ := 0.20
/-- Maximum possible rating. -/
def MaxRating : ℚ := 3.00

/-- Trade window in ticks (5 seconds at 64 tick). -/
def TradeWindowTicks : ℤ := 320
/-- Maximum distance for trade opportunity (units). -/
def TradeProximityUnits : ℚ := 1200.0

/-- First pistol round of the match. -/
def FirstHalfPistolRound : ℤ := 1
/-- Second half pistol round (MR12). -/
def SecondHalfPistolRound : ℤ := 13
/-- Total regulation rounds (MR12). -/
def RegulationRounds : ℤ := 24
/-- Rounds per overtime (MR3). -/
def OvertimeLength : ℤ := 6
/-- Server tick rate for time calculations. -/
def TickRate : ℤ := 64

/-- Modelled from the spec: the per-component weights of the final-rating
formula live in `rating/weights.go`, which is not under src/; the values
follow the component percentages stated in the source comments of
`ComputeFinalRating` (kill 28%, death 16%, ADR 18%, swing 10%, multi-kill
10%, KAST 6%, opening 6%, trade 4%, utility 2%). -/
def WeightKillRating : ℚ := 0.28

/-- Modelled from the spec: death-rating weight, 16% (see `WeightKillRating`). -/
def WeightDeathRating : ℚ := 0.16

/-- Modelled from the spec: ADR-rating weight, 18% (see `WeightKillRating`). -/
def WeightADRRating : ℚ := 0.18

/-- Modelled from the spec: swing-rating weight, 10% (see `WeightKillRating`). -/
def WeightSwingRating : ℚ := 0.10

/-- Modelled from the spec: multi-kill weight, 10% (see `WeightKillRating`). -/
def WeightMultiKillRating : ℚ := 0.10

/-- Modelled from the spec: KAST weight, 6% (see `WeightKillRating`). -/
def WeightKASTRating : ℚ := 0.06

/-- Modelled from the spec: opening-duel weight, 6% (see `WeightKillRating`). -/
def WeightOpeningRating : ℚ := 0.06

/-- Modelled from the spec: trade-efficiency weight, 4% (see `WeightKillRating`). -/
def WeightTradeRating : ℚ := 0.04

/-- Modelled from the spec: utility weight, 2% (see `WeightKillRating`). -/
def WeightUtilityRating : ℚ := 0.02

/-- Modelled from the spec: the remaining tuning inputs of the rating formula.
`mpow` models the library function `math.Pow` abstractly (the spec treats the
response curves as tuning policy); the six baselines are constants of
`rating/weights.go` not under src/, which the spec requires to be
externally configurable rather than hard-coded.  Every theorem below holds
for every choice of these inputs. -/
structure RatingParams where
  mpow : ℚ → ℚ → ℚ
  BaselineMultiKill : ℚ
  BaselineOpeningSuccessRate : ℚ
  BaselineTradeKillsPerRound : ℚ
  BaselineUtilityDamage : ℚ
  BaselineFlashAssists : ℚ
  BaselineEnemyFlashDur : ℚ

/-- The final clamp of the rating formulas:
`math.Max(MinRating, math.Min(MaxRating, rating))`. -/
def clampRating (rating : ℚ) : ℚ := max MinRating (min MaxRating rating)

/-- Multi-kill weights of `sumMulti`: 0, 0, double=1, triple=3, quad=7, ace=15. -/
def weights : Fin 6 → ℤ := ![0, 0, 1, 3, 7, 15]

/-- `sumMulti` weights the multi-kill histogram with exponential scaling,
looping over indices 2 through 5. -/
def sumMulti (m : Fin 6 → ℤ) : ℤ :=
  ([2, 3, 4, 5] : List (Fin 6)).foldl (fun total i => total + m i * weights i) 0

/-- Component 1 of `ComputeFinalRating` / `ComputeSideRating`: the kill
rating as a function of `killRatio = ecoKPR / BaselineKPR` (the block is
textually identical in the two entry points). -/
def killRatingOf (P : RatingParams) (killRatio : ℚ) : ℚ :=
  if killRatio ≥ 1.5 then 1.0 + (killRatio - 1.0) * 1.3
  else if killRatio ≥ 1.2 then 1.0 + (killRatio - 1.0) * 0.7
  else if killRatio ≥ 0.8 then P.mpow killRatio 0.9
  else P.mpow killRatio 1.1

/-- Component 2: the death rating as a function of
`deathRatio = dpr / BaselineDPR`, clamped to `[0.3, 1.9]`. -/
def deathRatingOf (P : RatingParams) (deathRatio : ℚ) : ℚ :=
  max 0.3 (min 1.9
    (if deathRatio ≤ 0.5 then 2.0 - deathRatio * 0.2
     else if deathRatio ≤ 0.8 then 1.7 - deathRatio * 0.4
     else if deathRatio ≤ 1.0 then 1.4 - deathRatio * 0.3
     else if deathRatio ≤ 1.3 then 1.0 / P.mpow deathRatio 1.0
     else 1.0 / P.mpow deathRatio 1.2))

/-- Component 3: the ADR rating as a function of `adrRatio = adr / BaselineADR`. -/
def adrRatingOf (adrRatio : ℚ) : ℚ :=
  if adrRatio ≥ 1.4 then 0.8 + adrRatio * 0.6
  else if adrRatio ≥ 1.0 then 0.7 + adrRatio * 0.5
  else if adrRatio ≥ 0.8 then 0.4 + adrRatio * 0.6
  else 0.3 + adrRatio * 0.5

/-- Component 4: the round-swing rating as a function of the average swing
per round, clamped to `[0.6, 1.4]`. -/
def swingRatingOf (avgSwing : ℚ) : ℚ :=
  max 0.6 (min 1.4
    (if avgSwing ≥ 0.05 then 1.0 + (avgSwing / 0.15) * 0.4
     else if avgSwing ≥ 0 then 1.0 + (avgSwing / 0.10) * 0.2
     else 1.0 + (avgSwing / 0.10) * 0.3))

/-- Component 5: the multi-kill rating from the weighted multi-kill bonus per
round, with the sliding-scale penalty driven by overall performance. -/
def multiKillRatingOf (P : RatingParams) (multiKillBonus overallPerformance : ℚ) : ℚ :=
  let multiKillRating := min (P.mpow (multiKillBonus / P.BaselineMultiKill) 0.8) 2.0
  if multiKillRating > 1.0 then
    1.0 + (multiKillRating - 1.0) * P.mpow (min 1.0 overallPerformance) 2
  else multiKillRating

/-- Component 6: the KAST rating as a function of `kastRatio`. -/
def kastRatingOf (P : RatingParams) (kastRatio : ℚ) : ℚ :=
  if kastRatio ≥ 1.2 then 1.0 + (kastRatio - 1.0) * 0.6
  else if kastRatio ≥ 0.9 then kastRatio
  else P.mpow kastRatio 1.2

/-- Component 7 (final rating only): the opening-duel rating, 1.0 when no
opening attempt was recorded, otherwise a clamped mix of success rate and win
conversion. -/
def openingRatingOf (P : RatingParams) (attempts successes wonAfterOpening : ℤ) : ℚ :=
  if attempts > 0 then
    let successRatio := ((successes : ℚ) / (attempts : ℚ)) / P.BaselineOpeningSuccessRate
    let winConversion := if successes > 0 then (wonAfterOpening : ℚ) / (successes : ℚ) else 0.0
    max 0.5 (min 1.6 (successRatio * 0.7 + winConversion * 0.6))
  else 1.0

/-- Component 8 (final rating only): the trade-efficiency rating, clamped to
`[0.6, 1.5]`. -/
def tradeRatingOf (P : RatingParams) (rounds : ℚ)
    (tradeKills deaths tradedDeaths savedTeammate : ℤ) : ℚ :=
  let tradeKillRatio := ((tradeKills : ℚ) / rounds) / P.BaselineTradeKillsPerRound
  let t1 := 1.0 + (tradeKillRatio - 1.0) * 0.3
  let t2 := if deaths > 0 then t1 + ((tradedDeaths : ℚ) / (deaths : ℚ)) * 0.2 else t1
  let t3 := t2 + ((savedTeammate : ℚ) / rounds) * 1.5
  max 0.6 (min 1.5 t3)

/-- Component 9 (final rating only): the utility rating, clamped to
`[0.5, 1.4]`. -/
def utilityRatingOf (P : RatingParams) (rounds : ℚ)
    (utilityDamage flashAssists : ℤ) (enemyFlashDuration : ℚ) : ℚ :=
  let utilDmgRatio := ((utilityDamage : ℚ) / rounds) / P.BaselineUtilityDamage
  let flashAssistRatio := ((flashAssists : ℚ) / rounds) / P.BaselineFlashAssists
  let enemyFlashRatio := (enemyFlashDuration / rounds) / P.BaselineEnemyFlashDur
  let utilityScore := utilDmgRatio * 0.4 + flashAssistRatio * 0.3 + enemyFlashRatio * 0.3
  max 0.5 (min 1.4 (0.7 + utilityScore * 0.3))

/-- The proportional clutch modifier (shared by the two entry points). -/
def clutchModifierOf (clutchRounds clutchWins : ℤ) : ℚ :=
  if clutchRounds > 0 then
    let clutchWinRate := (clutchWins : ℚ) / (clutchRounds : ℚ)
    if clutchWinRate < 0.3 then -(clutchRounds : ℚ) * (0.3 - clutchWinRate) * 0.04
    else (clutchWins : ℚ) * 0.015
  else 0.0

/-- The AWP economy penalty (final rating only). -/
def awpPenaltyOf (rounds : ℚ) (awpDeathsNoKill : ℤ) : ℚ :=
  if awpDeathsNoKill > 0 then (awpDeathsNoKill : ℚ) / rounds * 0.12 else 0.0

/-- The overall-performance index driving the multi-kill sliding scale in
`ComputeFinalRating`: the mean of the kill, ADR and KAST ratios. -/
def overallPerformanceOf (p : Model.PlayerStats) : ℚ :=
  ((p.EcoKillValue / (p.RoundsPlayed : ℚ)) / BaselineKPR
    + ((p.Damage : ℚ) / (p.RoundsPlayed : ℚ)) / BaselineADR
    + p.KAST / BaselineKAST) / 3.0

/-- The kill component of `ComputeFinalRating` on a player record. -/
def killComponent (P : RatingParams) (p : Model.PlayerStats) : ℚ :=
  killRatingOf P ((p.EcoKillValue / (p.RoundsPlayed : ℚ)) / BaselineKPR)

/-- The death component of `ComputeFinalRating` on a player record. -/
def deathComponent (P : RatingParams) (p : Model.PlayerStats) : ℚ :=
  deathRatingOf P (((p.Deaths : ℚ) / (p.RoundsPlayed : ℚ)) / BaselineDPR)

/-- The ADR component of `ComputeFinalRating` on a player record. -/
def adrComponent (p : Model.PlayerStats) : ℚ :=
  adrRatingOf (((p.Damage : ℚ) / (p.RoundsPlayed : ℚ)) / BaselineADR)

/-- The round-swing component of `ComputeFinalRating` on a player record. -/
def swingComponent (p : Model.PlayerStats) : ℚ :=
  swingRatingOf (p.RoundSwing / (p.RoundsPlayed : ℚ))

/-- The multi-kill component of `ComputeFinalRating` on a player record. -/
def multiKillComponent (P : RatingParams) (p : Model.PlayerStats) : ℚ :=
  multiKillRatingOf P ((sumMulti p.MultiKills : ℚ) / (p.RoundsPlayed : ℚ))
    (overallPerformanceOf p)

/-- The KAST component of `ComputeFinalRating` on a player record. -/
def kastComponent (P : RatingParams) (p : Model.PlayerStats) : ℚ :=
  kastRatingOf P (p.KAST / BaselineKAST)

/-- The opening-duel component of `ComputeFinalRating` on a player record. -/
def openingComponent (P : RatingParams) (p : Model.PlayerStats) : ℚ :=
  openingRatingOf P p.OpeningAttempts p.OpeningSuccesses p.RoundsWonAfterOpening

/-- The trade-efficiency component of `ComputeFinalRating` on a player record. -/
def tradeComponent (P : RatingParams) (p : Model.PlayerStats) : ℚ :=
  tradeRatingOf P ((p.RoundsPlayed : ℚ)) p.TradeKills p.Deaths p.TradedDeaths p.SavedTeammate

/-- The utility component of `ComputeFinalRating` on a player record. -/
def utilityComponent (P : RatingParams) (p : Model.PlayerStats) : ℚ :=
  utilityRatingOf P ((p.RoundsPlayed : ℚ)) p.UtilityDamage p.FlashAssists p.EnemyFlashDuration

/-- The clutch modifier of `ComputeFinalRating` on a player record. -/
def clutchComponent (p : Model.PlayerStats) : ℚ :=
  clutchModifierOf p.ClutchRounds p.ClutchWins

/-- The AWP penalty of `ComputeFinalRating` on a player record. -/
def awpComponent (p : Model.PlayerStats) : ℚ :=
  awpPenaltyOf ((p.RoundsPlayed : ℚ)) p.AWPDeathsNoKill

/-- `ComputeFinalRating` (rating.go): returns 0 when no round was played,
otherwise combines the nine weighted components with the clutch modifier and
AWP penalty, clamped to `[MinRating, MaxRating]`. -/
def ComputeFinalRating (P : RatingParams) (p : Model.PlayerStats) : ℚ :=
  if (p.RoundsPlayed : ℚ) = 0 then 0
  else
    clampRating
      (killComponent P p * WeightKillRating
        + deathComponent P p * WeightDeathRating
        + adrComponent p * WeightADRRating
        + swingComponent p * WeightSwingRating
        + multiKillComponent P p * WeightMultiKillRating
        + kastComponent P p * WeightKASTRating
        + openingComponent P p * WeightOpeningRating
        + tradeComponent P p * WeightTradeRating
        + utilityComponent P p * WeightUtilityRating
        + clutchComponent p
        - awpComponent p)

/-- `ComputeSideRating` (rating.go): the per-side entry point.  It re-runs
the kill/death/ADR/swing/multi-kill/KAST response curves on the side-tracked
stats (`kast` is a per-round sum and is divided by `rounds` first), adds the
clutch modifier, and combines them with the redistributed weights
0.32/0.18/0.20/0.12/0.12/0.06, the opening/trade/utility components being
absent. -/
def ComputeSideRating (P : RatingParams) (rounds kills deaths damage : ℤ)
    (ecoKillValue roundSwing kast : ℚ) (multiKills : Fin 6 → ℤ)
    (clutchRounds clutchWins : ℤ) : ℚ :=
  if (rounds : ℚ) = 0 then 0
  else
    let roundsF : ℚ := (rounds : ℚ)
    let kastPct := kast / roundsF
    clampRating
      (killRatingOf P ((ecoKillValue / roundsF) / BaselineKPR) * 0.32
        + deathRatingOf P (((deaths : ℚ) / roundsF) / BaselineDPR) * 0.18
        + adrRatingOf (((damage : ℚ) / roundsF) / BaselineADR) * 0.20
        + swingRatingOf (roundSwing / roundsF) * 0.12
        + multiKillRatingOf P ((sumMulti multiKills : ℚ) / roundsF)
            (((ecoKillValue / roundsF) / BaselineKPR
              + ((damage : ℚ) / roundsF) / BaselineADR
              + kastPct / BaselineKAST) / 3.0) * 0.12
        + kastRatingOf P (kastPct / BaselineKAST) * 0.06
        + clutchModifierOf clutchRounds clutchWins)

/-- Follows the claim's words: the player record carrying the side-restricted
values of `ComputeSideRating`'s arguments — the per-side `kast` sum becomes
the KAST fraction `kast / rounds` — with the components not tracked per-side
(opening duel, trade efficiency, utility, AWP penalty) held at their neutral
defaults (no attempts, no trades, no utility, no AWP deaths). -/
def restrictToSide (rounds kills deaths damage : ℤ)
    (ecoKillValue roundSwing kast : ℚ) (multiKills : Fin 6 → ℤ)
    (clutchRounds clutchWins : ℤ) : Model.PlayerStats :=
  { RoundsPlayed := rounds
    Kills := kills
    Deaths := deaths
    Damage := damage
    EcoKillValue := ecoKillValue
    RoundSwing := roundSwing
    KAST := kast / (rounds : ℚ)
    MultiKills := multiKills
    ClutchRounds := clutchRounds
    ClutchWins := clutchWins }

/-- `IsPistolRound` determines if a round number is a pistol round, handling
regulation and overtime pistol rounds for the MR12 format.  Under the
overtime guard both operands of `%` are nonnegative, where Go's truncated
`%` agrees with `Int.emod`. -/
def IsPistolRound (roundNumber : ℤ) : Bool :=
  if roundNumber = FirstHalfPistolRound ∨ roundNumber = SecondHalfPistolRound then true
  else if RegulationRounds < roundNumber ∧
      (roundNumber - RegulationRounds - 1) % OvertimeLength = 0 then true
  else false

end Rating

namespace RatingLinear

/-- Multi-kill weights of the linear implementation's `sumMulti`:
0, 0, double=2, triple=6, quad=14, ace=30 (doubled for HLTV alignment). -/
def weights : Fin 6 → ℤ := ![0, 0, 2, 6, 14, 30]

/-- `sumMulti` of the linear implementation, looping over indices 2
through 5. -/
def sumMulti (m : Fin 6 → ℤ) : ℤ :=
  ([2, 3, 4, 5] : List (Fin 6)).foldl (fun total i => total + m i * weights i) 0

/-- `ComputeFinalRating` of the linear implementation: a baseline of 1.0 plus
asymmetric linear contributions, clamped to the rating bounds.  Its
`MinRating`/`MaxRating` constants come from its own constants file, not under
src/; per the spec's design default they equal `[0.20, 3.00]` and are shared
with `Rating`. -/
def ComputeFinalRating (p : Model.PlayerStats) : ℚ :=
  if (p.RoundsPlayed : ℚ) = 0 then 0
  else
    let rounds : ℚ := (p.RoundsPlayed : ℚ)
    let kpr := (p.Kills : ℚ) / rounds
    let dpr := (p.Deaths : ℚ) / rounds
    let adr := (p.Damage : ℚ) / rounds
    let kast := p.KAST
    let avgSwing := p.RoundSwing / rounds
    let openingKillsPerRound := (p.OpeningKills : ℚ) / rounds
    let multiKillRoundsPerRound := (p.RoundsWithMultiKill : ℚ) / rounds
    let kprContrib := if kpr ≥ 0.7 then (kpr - 0.7) * 0.75 else (kpr - 0.7) * 0.55
    let dprContrib := if dpr ≤ 0.7 then (0.7 - dpr) * 0.15 else (0.7 - dpr) * 0.55
    let adrContrib := if adr ≥ 75.0 then (adr - 75.0) * 0.015 else (adr - 75.0) * 0.004
    let kastContrib := if kast ≥ 0.70 then (kast - 0.70) * 0.20 else (kast - 0.70) * 0.35
    let swingContrib := if avgSwing ≥ 0 then avgSwing * 0.75 else avgSwing * 1.00
    let impactContrib := openingKillsPerRound * 0.3 + multiKillRoundsPerRound * 0.15
    let multiKillBonus := (sumMulti p.MultiKillsRaw : ℚ) / rounds
    let multiContrib := multiKillBonus * 0.015
    Rating.clampRating
      (1.0 + kprContrib + dprContrib + adrContrib + kastContrib + swingContrib
        + impactContrib + multiContrib)

/-- `ComputeSideRating` of the linear implementation: the same linear formula
on the side-tracked stats (`kast` is a per-round sum, divided by `rounds`
first), without the impact contribution and without a clutch term. -/
def ComputeSideRating (rounds kills deaths damage : ℤ)
    (ecoKillValue roundSwing kast : ℚ) (multiKills : Fin 6 → ℤ)
    (clutchRounds clutchWins : ℤ) : ℚ :=
  if (rounds : ℚ) = 0 then 0
  else
    let roundsF : ℚ := (rounds : ℚ)
    let kpr := (kills : ℚ) / roundsF
    let dpr := (deaths : ℚ) / roundsF
    let adr := (damage : ℚ) / roundsF
    let kastPct := kast / roundsF
    let avgSwing := roundSwing / roundsF
    let kprContrib := if kpr ≥ 0.7 then (kpr - 0.7) * 0.75 else (kpr - 0.7) * 0.55
    let dprContrib := if dpr ≤ 0.7 then (0.7 - dpr) * 0.15 else (0.7 - dpr) * 0.55
    let adrContrib := if adr ≥ 75.0 then (adr - 75.0) * 0.015 else (adr - 75.0) * 0.004
    let kastContrib :=
      if kastPct ≥ 0.70 then (kastPct - 0.70) * 0.20 else (kastPct - 0.70) * 0.35
    let swingContrib := if avgSwing ≥ 0 then avgSwing * 0.75 else avgSwing * 1.00
    let multiKillBonus := (sumMulti multiKills : ℚ) / roundsF
    let multiContrib := multiKillBonus * 0.015
    Rating.clampRating
      (1.0 + kprContrib + dprContrib + adrContrib + kastContrib + swingContrib + multiContrib)

end RatingLinear

/-- A concrete instance of the abstract tuning inputs, used to evaluate the
embedding at concrete records: a simple total power model agreeing with
`math.Pow` at base 0 (positive exponent) and base 1, and unit baselines. -/
def ratParams : Rating.RatingParams :=
  { mpow := fun x y => if x = 0 then (if 0 < y then 0 else 1) else if x = 1 then 1 else x
    BaselineMultiKill := 1
    BaselineOpeningSuccessRate := 1
    BaselineTradeKillsPerRound := 1
    BaselineUtilityDamage := 1
    BaselineFlashAssists := 1
    BaselineEnemyFlashDur := 1 }

/-- The all-zero player record (a fresh record with no round played). -/
def zeroStats : Model.PlayerStats := {}

/-- A player record with one round played and all counters zero. -/
def oneRoundStats : Model.PlayerStats := { RoundsPlayed := 1 }

/-- A multi-kill histogram recording only single-kill and no-kill rounds. -/
def histLow : Fin 6 → ℤ := ![4, 9, 0, 0, 0, 0]

/-- The empty multi-kill histogram. -/
def histZero : Fin 6 → ℤ := fun _ => 0

/-! ## Theorems -/

/-- The clamp of the rating formulas always lands inside
`[MinRating, MaxRating]`. -/
lemma clampRating_mem (x : ℚ) :
    Rating.MinRating ≤ Rating.clampRating x ∧ Rating.clampRating x ≤ Rating.MaxRating := by
  unfold Rating.clampRating
  refine ⟨le_max_left _ _, max_le ?_ (min_le_left _ _)⟩
  norm_num [Rating.MinRating, Rating.MaxRating]

/-- C6: the economic kill-value multiplier tiers are strictly ordered by
attacker disadvantage — pistol-vs-rifle (1.80) > equal equipment (1.00) >
rifle-vs-pistol (0.70) — and the death-penalty table is ordered
symmetric-inverse to it: dying to a cheaper loadout (1.60) > dying to equal
equipment (1.00) > dying to a stronger loadout (0.70). -/
theorem ecoMultiplierTierOrdering :
    Rating.EcoKillPistolVsRifle > Rating.EcoKillEqual ∧
    Rating.EcoKillEqual > Rating.EcoKillRifleVsPistol ∧
    Rating.EcoKillPistolVsRifle = 1.80 ∧ Rating.EcoKillEqual = 1.00 ∧
    Rating.EcoKillRifleVsPistol = 0.70 ∧
    Rating.EcoDeathToPistol > Rating.EcoDeathEqual ∧
    Rating.EcoDeathEqual > Rating.EcoDeathPistolVsRifle ∧
    Rating.EcoDeathToPistol = 1.60 ∧ Rating.EcoDeathEqual = 1.00 ∧
    Rating.EcoDeathPistolVsRifle = 0.70 := by
  norm_num [Rating.EcoKillPistolVsRifle, Rating.EcoKillEqual, Rating.EcoKillRifleVsPistol,
    Rating.EcoDeathToPistol, Rating.EcoDeathEqual, Rating.EcoDeathPistolVsRifle]

/-- C7: the trade-window duration constant is the 5-second default expressed
as a tick budget at the recording's tick rate:
`TradeWindowTicks = 5 × TickRate`, i.e. `320 = 5 × 64`. -/
theorem tradeWindowIsFiveSecondsOfTicks :
    Rating.TradeWindowTicks = 5 * Rating.TickRate ∧
    Rating.TradeWindowTicks = 320 ∧ Rating.TickRate = 64 := by
  norm_num [Rating.TradeWindowTicks, Rating.TickRate]

/-- C9: `IsPistolRound n` is true exactly for `n = 1`, `n = 13`, and the
overtime pistol rounds `n > 24` with `(n − 25) mod 6 = 0` (25, 31, 37, …),
and false for every other round number. -/
theorem isPistolRound_characterization (n : ℤ) :
    Rating.IsPistolRound n = true ↔ (n = 1 ∨ n = 13 ∨ (24 < n ∧ (n - 25) % 6 = 0)) := by
  have hsub : n - (24 : ℤ) - 1 = n - 25 := by ring
  unfold Rating.IsPistolRound
  simp only [Rating.FirstHalfPistolRound, Rating.SecondHalfPistolRound,
    Rating.RegulationRounds, Rating.OvertimeLength, hsub]
  by_cases h1 : n = 1 ∨ n = 13
  · simp only [if_pos h1]
    exact ⟨fun _ => h1.elim (fun h => Or.inl h) (fun h => Or.inr (Or.inl h)), fun _ => trivial⟩
  · simp only [if_neg h1]
    by_cases h2 : 24 < n ∧ (n - 25) % 6 = 0
    · simp only [if_pos h2]
      exact ⟨fun _ => Or.inr (Or.inr h2), fun _ => trivial⟩
    · simp only [if_neg h2]
      constructor
      · intro hfalse
        exact absurd hfalse (by simp)
      · intro hr
        rcases hr with h | h | h
        · exact absurd (Or.inl h) h1
        · exact absurd (Or.inr h) h1
        · exact absurd h h2

/-- C10: in both rating implementations the multi-kill bonus depends only on
entries 2 through 5 of the histogram — the weight tables assign 0 to indices
0 and 1, and two histograms agreeing on entries 2 through 5 (with arbitrary
counts of zero-kill and one-kill rounds) always get the same `sumMulti`. -/
theorem sumMulti_ignores_zero_and_one_kill_rounds :
    (Rating.weights 0 = 0 ∧ Rating.weights 1 = 0 ∧
      RatingLinear.weights 0 = 0 ∧ RatingLinear.weights 1 = 0) ∧
    ∀ m m' : Fin 6 → ℤ,
      m 2 = m' 2 → m 3 = m' 3 → m 4 = m' 4 → m 5 = m' 5 →
      Rating.sumMulti m = Rating.sumMulti m' ∧
      RatingLinear.sumMulti m = RatingLinear.sumMulti m' := by
  refine ⟨⟨rfl, rfl, rfl, rfl⟩, ?_⟩
  intro m m' h2 h3 h4 h5
  constructor <;>
    simp [Rating.sumMulti, RatingLinear.sumMulti, List.foldl_cons, List.foldl_nil,
      h2, h3, h4, h5]

/-- Concrete instance of `sumMulti_ignores_zero_and_one_kill_rounds`: a
histogram with only no-kill and single-kill rounds scores the same as the
empty histogram. -/
theorem sumMulti_ignores_zero_and_one_kill_rounds_witness :
    histLow 2 = histZero 2 ∧ histLow 3 = histZero 3 ∧
    histLow 4 = histZero 4 ∧ histLow 5 = histZero 5 ∧
    Rating.sumMulti histLow = Rating.sumMulti histZero ∧
    RatingLinear.sumMulti histLow = RatingLinear.sumMulti histZero :=
  ⟨by decide, by decide, by decide, by decide,
    (sumMulti_ignores_zero_and_one_kill_rounds.2 histLow histZero (by decide) (by decide)
      (by decide) (by decide)).1,
    (sumMulti_ignores_zero_and_one_kill_rounds.2 histLow histZero (by decide) (by decide)
      (by decide) (by decide)).2⟩

/-- Folding the beneficiary step over a list is the same as first filtering
out the killer's id and then folding the first-occurrence step. -/
lemma foldl_beneficiary_filter (k : ℕ) (l : List ℕ) :
    ∀ acc : List ℕ,
      l.foldl (fun acc x => if x ≠ k ∧ x ∉ acc then acc ++ [x] else acc) acc =
        (l.filter (fun y => y != k)).foldl
          (fun acc x => if x ∉ acc then acc ++ [x] else acc) acc := by
  induction l with
  | nil => intro acc; simp
  | cons x xs ih =>
    intro acc
    by_cases hx : x = k
    · subst hx
      simp only [List.foldl_cons, List.filter_cons, bne_self_eq_false, if_neg
        (fun h : x ≠ x ∧ x ∉ acc => h.1 rfl)]
      exact ih acc
    · simp only [List.foldl_cons, List.filter_cons, if_pos (bne_iff_ne.mpr hx),
        List.foldl_cons]
      by_cases hmem : x ∈ acc
      · rw [if_neg (fun h : x ≠ k ∧ x ∉ acc => h.2 hmem),
          if_neg (fun h : x ∉ acc => h hmem)]
        exact ih acc
      · rw [if_pos ⟨hx, hmem⟩, if_pos hmem]
        exact ih (acc ++ [x])

/-- Folding the first-occurrence step collects, after the accumulator, the
distinct new elements in order of first appearance. -/
lemma foldl_firstOccurrence (l : List ℕ) :
    ∀ acc : List ℕ,
      l.foldl (fun acc x => if x ∉ acc then acc ++ [x] else acc) acc =
        acc ++ Parser.distinctInOrder (l.filter (fun y => decide (y ∉ acc))) := by
  induction l with
  | nil => intro acc; simp [Parser.distinctInOrder]
  | cons x xs ih =>
    intro acc
    by_cases hmem : x ∈ acc
    · have h1 : (if x ∉ acc then acc ++ [x] else acc) = acc := if_neg (fun h => h hmem)
      have h2 : (x :: xs).filter (fun y => decide (y ∉ acc)) =
          xs.filter (fun y => decide (y ∉ acc)) := by
        simp [List.filter_cons, hmem]
      rw [List.foldl_cons, h1, h2]
      exact ih acc
    · have h1 : (if x ∉ acc then acc ++ [x] else acc) = acc ++ [x] := if_pos hmem
      have h2 : (x :: xs).filter (fun y => decide (y ∉ acc)) =
          x :: xs.filter (fun y => decide (y ∉ acc)) := by
        simp [List.filter_cons, hmem]
      rw [List.foldl_cons, h1, h2, ih (acc ++ [x]), Parser.distinctInOrder]
      have hfilters :
          xs.filter (fun y => decide (y ∉ acc ++ [x])) =
            (xs.filter (fun y => decide (y ∉ acc))).filter (fun y => y != x) := by
        rw [List.filter_filter]
        apply List.filter_congr
        intro y _
        rcases Decidable.em (y = x) with h | h <;>
          rcases Decidable.em (y ∈ acc) with h3 | h3 <;>
          simp [h, h3, List.mem_append]
      rw [hfilters]
      simp

/-- The beneficiary loop of `RecordKill` computes exactly the spec's
beneficiary set: distinct ids, killer excluded, in creation order. -/
lemma survivalBeneficiaries_eq_spec (k : ℕ) (slots : List Parser.AdvantageSlot) :
    Parser.survivalBeneficiaries k slots = Parser.specBeneficiaries k slots := by
  unfold Parser.survivalBeneficiaries Parser.specBeneficiaries
  rw [← List.foldl_map Parser.AdvantageSlot.PlayerID
    (fun acc x => if x ≠ k ∧ x ∉ acc then acc ++ [x] else acc)]
  rw [foldl_beneficiary_filter, foldl_firstOccurrence]
  simp

/-- C2: `RecordKill k s` returns exactly the distinct ids other than `k`
holding an unconsumed slot on side `s`, in slot-creation order, computed
before the killer's new slot is appended at the tail of side `s`'s FIFO; in
particular three successive kills by distinct players `A`, `B`, `C` on the
same side make the third call return `[A, B]`. -/
theorem recordKill_returns_prior_distinct_holders :
    ∀ (t : Parser.AdvantageTracker) (k : ℕ) (s : Parser.Team),
      (Parser.RecordKill t k s).1 = Parser.specBeneficiaries k (Parser.getSlots t s) ∧
      Parser.getSlots (Parser.RecordKill t k s).2 s =
        Parser.getSlots t s ++ [{ PlayerID := k, Side := s }] ∧
      (s = Parser.Team.terrorists → (Parser.RecordKill t k s).2.ctSlots = t.ctSlots) ∧
      (s ≠ Parser.Team.terrorists → (Parser.RecordKill t k s).2.tSlots = t.tSlots) ∧
      ∀ A B C : ℕ, A ≠ B → C ≠ A → C ≠ B →
        (Parser.RecordKill (Parser.RecordKill
          (Parser.RecordKill Parser.NewAdvantageTracker A s).2 B s).2 C s).1 = [A, B] := by
  intro t k s
  refine ⟨survivalBeneficiaries_eq_spec k _, ?_, ?_, ?_, ?_⟩
  · cases s <;>
      simp [Parser.RecordKill, Parser.getSlots, Parser.addSlot]
  · intro hs; subst hs
    simp [Parser.RecordKill, Parser.addSlot]
  · intro hs
    cases s <;> simp_all [Parser.RecordKill, Parser.addSlot]
  · intro A B C hab hca hcb
    have hrk : (Parser.RecordKill (Parser.RecordKill
        (Parser.RecordKill Parser.NewAdvantageTracker A s).2 B s).2 C s).1 =
        Parser.survivalBeneficiaries C (Parser.getSlots (Parser.RecordKill
          (Parser.RecordKill Parser.NewAdvantageTracker A s).2 B s).2 s) := rfl
    rw [hrk, survivalBeneficiaries_eq_spec]
    have hslots :
        Parser.getSlots (Parser.RecordKill (Parser.RecordKill
          Parser.NewAdvantageTracker A s).2 B s).2 s =
          [{ PlayerID := A, Side := s }, { PlayerID := B, Side := s }] := by
      cases s <;>
        simp [Parser.RecordKill, Parser.getSlots, Parser.addSlot, Parser.NewAdvantageTracker]
    rw [hslots]
    simp [Parser.specBeneficiaries, Parser.distinctInOrder, List.filter_cons,
      bne_iff_ne.mpr (Ne.symm hca), bne_iff_ne.mpr (Ne.symm hcb),
      bne_iff_ne.mpr (Ne.symm hab), Parser.distinctInOrder]

/-- Concrete instance of `recordKill_returns_prior_distinct_holders`: kills
by players 1, 2, 3 on the T side make the third call return `[1, 2]`. -/
theorem recordKill_returns_prior_distinct_holders_witness :
    (1 : ℕ) ≠ 2 ∧ (3 : ℕ) ≠ 1 ∧ (3 : ℕ) ≠ 2 ∧
    (Parser.RecordKill (Parser.RecordKill
      (Parser.RecordKill Parser.NewAdvantageTracker 1 Parser.Team.terrorists).2 2
        Parser.Team.terrorists).2 3 Parser.Team.terrorists).1 = [1, 2] :=
  ⟨by decide, by decide, by decide,
    (recordKill_returns_prior_distinct_holders Parser.NewAdvantageTracker 3
      Parser.Team.terrorists).2.2.2.2 1 2 3 (by decide) (by decide) (by decide)⟩

/-- C3: `RecordDeath v s` replaces side `s`'s ledger by the tail of the old
ledger (dropping the oldest slot when one exists) filtered of every slot
owned by `v`, leaves the other ledger untouched, and removes at most one slot
owned by a player other than `v`. -/
theorem recordDeath_consumes_oldest_then_removes_victim :
    ∀ (t : Parser.AdvantageTracker) (v : ℕ) (s : Parser.Team),
      Parser.RecordDeath t v s =
        Parser.setSlots t s
          ((Parser.getSlots t s).tail.filter (fun sl => sl.PlayerID != v)) ∧
      (Parser.RecordDeath t v s).tSlots =
        (if s = Parser.Team.terrorists then
          t.tSlots.tail.filter (fun sl => sl.PlayerID != v)
        else t.tSlots) ∧
      (Parser.RecordDeath t v s).ctSlots =
        (if s = Parser.Team.terrorists then t.ctSlots
        else t.ctSlots.tail.filter (fun sl => sl.PlayerID != v)) ∧
      ((Parser.getSlots t s).filter (fun sl => sl.PlayerID != v)).length ≤
        ((Parser.getSlots (Parser.RecordDeath t v s) s).filter
          (fun sl => sl.PlayerID != v)).length + 1 := by
  intro t v s
  obtain ⟨ts, cs⟩ := t
  cases s <;> [skip; skip; cases ts; skip] <;> [cases cs; cases cs; skip; skip; cases cs] <;>
    simp [Parser.RecordDeath, Parser.getSlots, Parser.setSlots, Parser.removePlayerSlots,
      List.filter_filter, List.filter_cons] <;>
    split <;> simp

/-- C8: every side value other than `terrorists` reads and mutates the CT
ledger — `getSlots` returns `ctSlots`, `RecordKill` appends to `ctSlots` and
preserves `tSlots`, `RecordDeath` consumes from `ctSlots` and preserves
`tSlots`; in particular a slot created by `RecordKill k unassigned` is the
one consumed by a subsequent `RecordDeath v counterTerrorists`. -/
theorem nonTerroristSidesShareCTLedger :
    ∀ (t : Parser.AdvantageTracker) (k v : ℕ) (s : Parser.Team),
      s ≠ Parser.Team.terrorists →
      Parser.getSlots t s = t.ctSlots ∧
      (Parser.RecordKill t k s).2.ctSlots = t.ctSlots ++ [⟨k, s⟩] ∧
      (Parser.RecordKill t k s).2.tSlots = t.tSlots ∧
      (Parser.RecordDeath t v s).ctSlots =
        t.ctSlots.tail.filter (fun sl => sl.PlayerID != v) ∧
      (Parser.RecordDeath t v s).tSlots = t.tSlots ∧
      (Parser.RecordDeath
        (Parser.RecordKill Parser.NewAdvantageTracker k Parser.Team.unassigned).2 v
        Parser.Team.counterTerrorists).ctSlots = [] := by
  intro t k v s hs
  obtain ⟨ts, cs⟩ := t
  cases s
  case terrorists => exact absurd rfl hs
  all_goals
    cases cs <;>
      simp [Parser.RecordDeath, Parser.RecordKill, Parser.getSlots, Parser.setSlots,
        Parser.addSlot, Parser.removePlayerSlots, Parser.NewAdvantageTracker]

/-- Concrete instance of `nonTerroristSidesShareCTLedger` at side
`unassigned`. -/
theorem nonTerroristSidesShareCTLedger_witness :
    Parser.Team.unassigned ≠ Parser.Team.terrorists ∧
    Parser.getSlots Parser.NewAdvantageTracker Parser.Team.unassigned =
      Parser.NewAdvantageTracker.ctSlots ∧
    (Parser.RecordDeath
      (Parser.RecordKill Parser.NewAdvantageTracker 1 Parser.Team.unassigned).2 2
      Parser.Team.counterTerrorists).ctSlots = [] :=
  ⟨by decide,
    (nonTerroristSidesShareCTLedger Parser.NewAdvantageTracker 1 2 Parser.Team.unassigned
      (by decide)).1,
    (nonTerroristSidesShareCTLedger Parser.NewAdvantageTracker 1 2 Parser.Team.unassigned
      (by decide)).2.2.2.2.2⟩


/-- C1 (counterexample): a player record with zero rounds played makes
`ComputeFinalRating` return 0, which lies outside `[MinRating, MaxRating]`,
so the bound does not hold for every player-statistics record. -/
theorem finalRating_bounds_fail_at_zero_rounds :
    ¬ (Rating.MinRating ≤ Rating.ComputeFinalRating ratParams zeroStats ∧
        Rating.ComputeFinalRating ratParams zeroStats ≤ Rating.MaxRating) := by
  have h : Rating.ComputeFinalRating ratParams zeroStats = 0 := by
    unfold Rating.ComputeFinalRating
    rw [if_pos (by norm_num [zeroStats])]
  rw [h]
  norm_num [Rating.MinRating, Rating.MaxRating]

/-- C1 (amended): for every record with a nonzero number of rounds played,
and for every choice of the abstract tuning inputs, the final rating and the
side rating lie within `[MinRating, MaxRating] = [0.20, 3.00]`, in both
implementations of the final-rating formula. -/
theorem rating_within_bounds_of_rounds_ne_zero :
    ∀ (P : Rating.RatingParams) (p : Model.PlayerStats)
      (rounds kills deaths damage : ℤ) (eco swing kast : ℚ)
      (mk : Fin 6 → ℤ) (cr cw : ℤ),
      p.RoundsPlayed ≠ 0 → rounds ≠ 0 →
      (Rating.MinRating ≤ Rating.ComputeFinalRating P p ∧
        Rating.ComputeFinalRating P p ≤ Rating.MaxRating) ∧
      (Rating.MinRating ≤ RatingLinear.ComputeFinalRating p ∧
        RatingLinear.ComputeFinalRating p ≤ Rating.MaxRating) ∧
      (Rating.MinRating ≤
          Rating.ComputeSideRating P rounds kills deaths damage eco swing kast mk cr cw ∧
        Rating.ComputeSideRating P rounds kills deaths damage eco swing kast mk cr cw ≤
          Rating.MaxRating) ∧
      (Rating.MinRating ≤
          RatingLinear.ComputeSideRating rounds kills deaths damage eco swing kast mk cr cw ∧
        RatingLinear.ComputeSideRating rounds kills deaths damage eco swing kast mk cr cw ≤
          Rating.MaxRating) := by
  intro P p rounds kills deaths damage eco swing kast mk cr cw hp hr
  have hp' : ¬((p.RoundsPlayed : ℚ) = 0) := by
    simpa using hp
  have hr' : ¬((rounds : ℚ) = 0) := by
    simpa using hr
  refine ⟨?_, ?_, ?_, ?_⟩
  · unfold Rating.ComputeFinalRating
    rw [if_neg hp']
    exact clampRating_mem _
  · unfold RatingLinear.ComputeFinalRating
    rw [if_neg hp']
    exact clampRating_mem _
  · unfold Rating.ComputeSideRating
    rw [if_neg hr']
    exact clampRating_mem _
  · unfold RatingLinear.ComputeSideRating
    rw [if_neg hr']
    exact clampRating_mem _

/-- Concrete instance of `rating_within_bounds_of_rounds_ne_zero` at one
round played. -/
theorem rating_within_bounds_witness :
    oneRoundStats.RoundsPlayed ≠ 0 ∧ (1 : ℤ) ≠ 0 ∧
    (Rating.MinRating ≤ Rating.ComputeFinalRating ratParams oneRoundStats ∧
      Rating.ComputeFinalRating ratParams oneRoundStats ≤ Rating.MaxRating) :=
  ⟨by decide, by decide,
    (rating_within_bounds_of_rounds_ne_zero ratParams oneRoundStats 1 0 0 0 0 0 0 histZero
      0 0 (by decide) (by decide)).1⟩

/-- C4: with zero rounds played both implementations of `ComputeFinalRating`
return 0, both side entry points return 0 when their rounds argument is 0,
and the derived-rate computation assigns nothing (every rate stays at its
zero value), all independently of every other field and of the abstract
tuning inputs — no quotient influences the result. -/
theorem zero_rounds_reports_zero :
    ∀ (P : Rating.RatingParams) (p : Model.PlayerStats)
      (kills deaths damage : ℤ) (eco swing kast : ℚ) (mk : Fin 6 → ℤ) (cr cw : ℤ),
      p.RoundsPlayed = 0 →
      Rating.ComputeFinalRating P p = 0 ∧
      RatingLinear.ComputeFinalRating p = 0 ∧
      Rating.ComputeSideRating P 0 kills deaths damage eco swing kast mk cr cw = 0 ∧
      RatingLinear.ComputeSideRating 0 kills deaths damage eco swing kast mk cr cw = 0 ∧
      Model.computeDerivedStats p = p := by
  intro P p kills deaths damage eco swing kast mk cr cw h
  have hp' : (p.RoundsPlayed : ℚ) = 0 := by
    rw [h]; norm_num
  refine ⟨?_, ?_, ?_, ?_, ?_⟩
  · unfold Rating.ComputeFinalRating
    rw [if_pos hp']
  · unfold RatingLinear.ComputeFinalRating
    rw [if_pos hp']
  · unfold Rating.ComputeSideRating
    rw [if_pos (by norm_num)]
  · unfold RatingLinear.ComputeSideRating
    rw [if_pos (by norm_num)]
  · unfold Model.computeDerivedStats
    rw [if_neg (by rw [h]; exact lt_irrefl 0)]

/-- Concrete instance of `zero_rounds_reports_zero` at the fresh all-zero
record. -/
theorem zero_rounds_reports_zero_witness :
    zeroStats.RoundsPlayed = 0 ∧
    Rating.ComputeFinalRating ratParams zeroStats = 0 ∧
    RatingLinear.ComputeFinalRating zeroStats = 0 :=
  ⟨by decide,
    (zero_rounds_reports_zero ratParams zeroStats 0 0 0 0 0 0 histZero 0 0 (by decide)).1,
    (zero_rounds_reports_zero ratParams zeroStats 0 0 0 0 0 0 histZero 0 0 (by decide)).2.1⟩

/-- C5 (counterexample): at one side round with all counters zero,
`ComputeSideRating` returns 0.522 while `ComputeFinalRating` applied to the
side-restricted record with the untracked components at their neutral
defaults returns 0.56 — the two entry points do not compute the same value. -/
theorem sideRating_ne_restricted_finalRating :
    Rating.ComputeSideRating ratParams 1 0 0 0 0 0 0 histZero 0 0 ≠
      Rating.ComputeFinalRating ratParams
        (Rating.restrictToSide 1 0 0 0 0 0 0 histZero 0 0) := by
  have h1 : Rating.ComputeSideRating ratParams 1 0 0 0 0 0 0 histZero 0 0 = 261 / 500 := by
    norm_num [Rating.ComputeSideRating, Rating.killRatingOf, Rating.deathRatingOf,
      Rating.adrRatingOf, Rating.swingRatingOf, Rating.multiKillRatingOf,
      Rating.kastRatingOf, Rating.clutchModifierOf, Rating.clampRating, Rating.sumMulti,
      Rating.weights, ratParams, histZero, Rating.BaselineKPR, Rating.BaselineDPR,
      Rating.BaselineADR, Rating.BaselineKAST, Rating.MinRating, Rating.MaxRating,
      max_def, min_def]
  have h2 : Rating.ComputeFinalRating ratParams
      (Rating.restrictToSide 1 0 0 0 0 0 0 histZero 0 0) = 14 / 25 := by
    norm_num [Rating.ComputeFinalRating, Rating.restrictToSide, Rating.killComponent,
      Rating.deathComponent, Rating.adrComponent, Rating.swingComponent,
      Rating.multiKillComponent, Rating.kastComponent, Rating.openingComponent,
      Rating.tradeComponent, Rating.utilityComponent, Rating.clutchComponent,
      Rating.awpComponent, Rating.overallPerformanceOf, Rating.killRatingOf,
      Rating.deathRatingOf, Rating.adrRatingOf, Rating.swingRatingOf,
      Rating.multiKillRatingOf, Rating.kastRatingOf, Rating.openingRatingOf,
      Rating.tradeRatingOf, Rating.utilityRatingOf, Rating.clutchModifierOf,
      Rating.awpPenaltyOf, Rating.clampRating, Rating.sumMulti, Rating.weights,
      ratParams, histZero, Rating.BaselineKPR, Rating.BaselineDPR, Rating.BaselineADR,
      Rating.BaselineKAST, Rating.MinRating, Rating.MaxRating, Rating.WeightKillRating,
      Rating.WeightDeathRating, Rating.WeightADRRating, Rating.WeightSwingRating,
      Rating.WeightMultiKillRating, Rating.WeightKASTRating, Rating.WeightOpeningRating,
      Rating.WeightTradeRating, Rating.WeightUtilityRating, max_def, min_def]
  rw [h1, h2]
  norm_num

/-- C5 (amended): `ComputeSideRating` applies the same per-component response
curves as `ComputeFinalRating` to the side-restricted record (`kast` read as
a per-round sum), but combines them with the redistributed weights
0.32/0.18/0.20/0.12/0.12/0.06 and drops the opening-duel, trade-efficiency,
utility and AWP components entirely, whereas `ComputeFinalRating` weighs the
same component values by 0.28/0.16/0.18/0.10/0.10/0.06 and adds the
opening/trade/utility components and the AWP penalty. -/
theorem sideRating_same_curves_redistributed_weights :
    ∀ (P : Rating.RatingParams) (rounds kills deaths damage : ℤ)
      (eco swing kast : ℚ) (mk : Fin 6 → ℤ) (cr cw : ℤ),
      rounds ≠ 0 →
      Rating.ComputeSideRating P rounds kills deaths damage eco swing kast mk cr cw =
        Rating.clampRating
          (Rating.killComponent P
              (Rating.restrictToSide rounds kills deaths damage eco swing kast mk cr cw)
              * 0.32
            + Rating.deathComponent P
              (Rating.restrictToSide rounds kills deaths damage eco swing kast mk cr cw)
              * 0.18
            + Rating.adrComponent
              (Rating.restrictToSide rounds kills deaths damage eco swing kast mk cr cw)
              * 0.20
            + Rating.swingComponent
              (Rating.restrictToSide rounds kills deaths damage eco swing kast mk cr cw)
              * 0.12
            + Rating.multiKillComponent P
              (Rating.restrictToSide rounds kills deaths damage eco swing kast mk cr cw)
              * 0.12
            + Rating.kastComponent P
              (Rating.restrictToSide rounds kills deaths damage eco swing kast mk cr cw)
              * 0.06
            + Rating.clutchComponent
              (Rating.restrictToSide rounds kills deaths damage eco swing kast mk cr cw)) ∧
      Rating.ComputeFinalRating P
          (Rating.restrictToSide rounds kills deaths damage eco swing kast mk cr cw) =
        Rating.clampRating
          (Rating.killComponent P
              (Rating.restrictToSide rounds kills deaths damage eco swing kast mk cr cw)
              * Rating.WeightKillRating
            + Rating.deathComponent P
              (Rating.restrictToSide rounds kills deaths damage eco swing kast mk cr cw)
              * Rating.WeightDeathRating
            + Rating.adrComponent
              (Rating.restrictToSide rounds kills deaths damage eco swing kast mk cr cw)
              * Rating.WeightADRRating
            + Rating.swingComponent
              (Rating.restrictToSide rounds kills deaths damage eco swing kast mk cr cw)
              * Rating.WeightSwingRating
            + Rating.multiKillComponent P
              (Rating.restrictToSide rounds kills deaths damage eco swing kast mk cr cw)
              * Rating.WeightMultiKillRating
            + Rating.kastComponent P
              (Rating.restrictToSide rounds kills deaths damage eco swing kast mk cr cw)
              * Rating.WeightKASTRating
            + Rating.openingComponent P
              (Rating.restrictToSide rounds kills deaths damage eco swing kast mk cr cw)
              * Rating.WeightOpeningRating
            + Rating.tradeComponent P
              (Rating.restrictToSide rounds kills deaths damage eco swing kast mk cr cw)
              * Rating.WeightTradeRating
            + Rating.utilityComponent P
              (Rating.restrictToSide rounds kills deaths damage eco swing kast mk cr cw)
              * Rating.WeightUtilityRating
            + Rating.clutchComponent
              (Rating.restrictToSide rounds kills deaths damage eco swing kast mk cr cw)
            - Rating.awpComponent
              (Rating.restrictToSide rounds kills deaths damage eco swing kast mk cr cw)) := by
  intro P rounds kills deaths damage eco swing kast mk cr cw hr
  have hr' : ¬((rounds : ℚ) = 0) := by
    simpa using hr
  constructor
  · unfold Rating.ComputeSideRating
    rw [if_neg hr']
    rfl
  · unfold Rating.ComputeFinalRating
    rw [if_neg (show ¬(((Rating.restrictToSide rounds kills deaths damage eco swing kast
      mk cr cw).RoundsPlayed : ℚ) = 0) from hr')]

/-- Concrete instance of `sideRating_same_curves_redistributed_weights` at
one round with all counters zero. -/
theorem sideRating_same_curves_witness :
    (1 : ℤ) ≠ 0 ∧
    Rating.ComputeSideRating ratParams 1 0 0 0 0 0 0 histZero 0 0 =
      Rating.clampRating
        (Rating.killComponent ratParams
            (Rating.restrictToSide 1 0 0 0 0 0 0 histZero 0 0) * 0.32
          + Rating.deathComponent ratParams
            (Rating.restrictToSide 1 0 0 0 0 0 0 histZero 0 0) * 0.18
          + Rating.adrComponent
            (Rating.restrictToSide 1 0 0 0 0 0 0 histZero 0 0) * 0.20
          + Rating.swingComponent
            (Rating.restrictToSide 1 0 0 0 0 0 0 histZero 0 0) * 0.12
          + Rating.multiKillComponent ratParams
            (Rating.restrictToSide 1 0 0 0 0 0 0 histZero 0 0) * 0.12
          + Rating.kastComponent ratParams
            (Rating.restrictToSide 1 0 0 0 0 0 0 histZero 0 0) * 0.06
          + Rating.clutchComponent
            (Rating.restrictToSide 1 0 0 0 0 0 0 histZero 0 0)) :=
  ⟨by decide,
    (sideRating_same_curves_redistributed_weights ratParams 1 0 0 0 0 0 0 histZero 0 0
      (by decide)).1⟩
